import Mathlib

/-!
Shallow embedding of the policy test endpoint of WorkflowCraftReact
(src/server/routes.ts, handler for POST /api/workflows/test-sod-policy).

The handler receives a JSON body with fields code, testUser, testAction and
testContext, guards on truthiness of the first three, builds a sandbox
object with bindings user, action, context and a result slot, compiles a
wrapper script

    try {
      ${code}
      result = validateSOD(user, action, context);
    } catch (error) {
      result = { valid: false, reason: error.message };
    }

with vm.Script, runs it in a fresh context with a 5000 ms timeout, and
responds with res.json({success:true, result: sandbox.result}); any
exception reaching the outer catch yields
res.status(500).json({success:false, error: error instanceof Error ?
error.message : "Code execution failed"}).

The user script text is arbitrary JavaScript, so its execution is embedded
as an oracle (ScriptModel): whether the wrapper compiles, what running the
body does, and, when it defines validateSOD, what calling it does.  The
wrapper itself, the sandbox construction, the guard and the response
mapping are translated from the source.  Responses are modelled at the
JavaScript object level (status code plus the object handed to res.json),
before JSON serialization.
-/

namespace WorkflowCraft

/-- JSON-like JavaScript values, as they appear in the request body, the
sandbox bindings and the response objects.  Numbers are modelled as
integers (all numbers appearing in the spec and fixtures are integral). -/
inductive JsValue where
  | null
  | undefined
  | boolean (b : Bool)
  | num (n : Int)
  | str (s : String)
  | obj (fields : List (String × JsValue))

/-- JavaScript truthiness, as used by the guard `!code || !testUser ||
!testAction` and by `testContext || {}`.  Falsy values: null, undefined,
false, 0, the empty string. -/
def truthy : JsValue → Bool
  | .null => false
  | .undefined => false
  | .boolean b => b
  | .num n => n != 0
  | .str s => s != ""
  | .obj _ => true

/-- Property access `v.k` on a value that is not null or undefined:
lookup on an object, undefined otherwise (and undefined for a missing
key). -/
def getProp : JsValue → String → JsValue
  | .obj fields, k =>
      match fields.lookup k with
      | some v => v
      | none => .undefined
  | _, _ => .undefined

/-- A thrown JavaScript exception: either an instance of Error carrying a
message string, or any other thrown value. -/
inductive Thrown where
  | errorObj (msg : String)
  | rawValue (v : JsValue)

/-- Possible outcomes of calling the validateSOD function defined by the
user script: return a value, throw, or exceed the time budget. -/
inductive CallOutcome where
  | returns (v : JsValue)
  | throws (e : Thrown)
  | diverges

/-- Possible outcomes of running the statements of the user script text
inside the wrapper: it completes (and either leaves a callable named
validateSOD in scope, described by its call semantics, or does not),
throws, or exceeds the time budget. -/
inductive BodyOutcome where
  | completes (sod : Option (JsValue → JsValue → JsValue → CallOutcome))
  | throws (e : Thrown)
  | diverges

/-- Oracle describing the behavior of a given user script text: whether
new vm.Script on the wrapper throws a SyntaxError (with its message), and
what running the body does.  It abstracts the script as observed through
the wrapper, assuming the code text is a statement list that does not
break out of the try block syntactically. -/
structure ScriptModel where
  compile : Option String
  body : BodyOutcome

/-- The Error thrown by script.runInContext when the 5000 ms timeout
option expires (Node vm behavior for the timeout option passed at line
113 of routes.ts). -/
def timeoutError : Thrown := .errorObj "Script execution timed out after 5000ms"

/-- Semantics of the inner catch block `result = { valid: false, reason:
error.message };`: assigns a verdict built from the message of the caught
value, except that reading .message on a thrown null or undefined itself
throws a TypeError, which then escapes the wrapper. -/
def catchHandler : Thrown → Except Thrown JsValue
  | .errorObj msg =>
      .ok (.obj [("valid", .boolean false), ("reason", .str msg)])
  | .rawValue .null =>
      .error (.errorObj "Cannot read properties of null (reading \x27message\x27)")
  | .rawValue .undefined =>
      .error (.errorObj "Cannot read properties of undefined (reading \x27message\x27)")
  | .rawValue v =>
      .ok (.obj [("valid", .boolean false), ("reason", getProp v "message")])

/-- Semantics of script.runInContext on the wrapper: run the body; if it
completes, evaluate `result = validateSOD(user, action, context)`.  A
missing validateSOD raises a ReferenceError caught by the inner catch; a
throw from the body or the call goes through the inner catch; divergence
anywhere makes runInContext throw the timeout Error.  Returns the final
value of the sandboxed result slot, or the exception runInContext
throws. -/
def runWrapped (m : ScriptModel) (user action ctx : JsValue) :
    Except Thrown JsValue :=
  match m.body with
  | .diverges => .error timeoutError
  | .throws e => catchHandler e
  | .completes none =>
      catchHandler (.errorObj "validateSOD is not defined")
  | .completes (some f) =>
      match f user action ctx with
      | .returns v => .ok v
      | .throws e => catchHandler e
      | .diverges => .error timeoutError

/-- The request body of POST /api/workflows/test-sod-policy: the four
fields read by the destructuring at line 89, each possibly absent. -/
structure RequestBody where
  code : Option JsValue
  testUser : Option JsValue
  testAction : Option JsValue
  testContext : Option JsValue

/-- Value of a destructured field: the field when present, undefined when
absent. -/
def fieldVal : Option JsValue → JsValue
  | some v => v
  | none => .undefined

/-- The sandbox object of lines 96 to 101: user, action, context
(defaulted with `testContext || {}`) and the result slot initialized to
null. -/
structure Sandbox where
  user : JsValue
  action : JsValue
  context : JsValue
  result : JsValue

/-- Construction of the sandbox from the request body. -/
def mkSandbox (req : RequestBody) : Sandbox :=
  { user := fieldVal req.testUser
    action := fieldVal req.testAction
    context :=
      if truthy (fieldVal req.testContext) then fieldVal req.testContext
      else .obj []
    result := .null }

/-- An HTTP response: status code and the object passed to res.json. -/
structure Response where
  status : Nat
  body : JsValue

/-- The outer catch mapping of lines 120 to 123: `error instanceof Error ?
error.message : "Code execution failed"`. -/
def outerMessage : Thrown → JsValue
  | .errorObj msg => .str msg
  | .rawValue _ => .str "Code execution failed"

/-- Steps of the handler that touch the script: constructing the vm.Script
and running it in the context. -/
inductive Event where
  | compileScript
  | runScript

/-- The POST /api/workflows/test-sod-policy handler (lines 87 to 125),
over the request body and the oracle for the script text.  Returns the
response together with the list of script-touching steps performed. -/
def testSodPolicy (req : RequestBody) (m : ScriptModel) :
    Response × List Event :=
  let code := fieldVal req.code
  let testUser := fieldVal req.testUser
  let testAction := fieldVal req.testAction
  if !truthy code || !truthy testUser || !truthy testAction then
    (⟨400, .obj [("message", .str "Missing required fields")]⟩, [])
  else
    let sandbox := mkSandbox req
    match m.compile with
    | some msg =>
        (⟨500, .obj [("success", .boolean false),
                     ("error", outerMessage (.errorObj msg))]⟩,
         [.compileScript])
    | none =>
        match runWrapped m sandbox.user sandbox.action sandbox.context with
        | .ok r =>
            (⟨200, .obj [("success", .boolean true), ("result", r)]⟩,
             [.compileScript, .runScript])
        | .error e =>
            (⟨500, .obj [("success", .boolean false),
                         ("error", outerMessage e)]⟩,
             [.compileScript, .runScript])

/-! Fixtures: the spec example scenario (testUser with approvalLimit 100,
testAction with amount 150, and the example script), plus small models
used as concrete instances of the other claims. -/

/-- Greater-than on JavaScript values as needed by the example script:
numeric comparison on numbers (comparisons involving undefined are
false). -/
def jsGt : JsValue → JsValue → Bool
  | .num a, .num b => b < a
  | _, _ => false

def exampleUser : JsValue := .obj [("approvalLimit", .num 100)]

def exampleAction : JsValue := .obj [("amount", .num 150)]

/-- Call semantics of the validateSOD function defined by the example
script of the spec: reject with reason "over limit" when action.amount
exceeds user.approvalLimit, accept otherwise. -/
def exampleSod : JsValue → JsValue → JsValue → CallOutcome :=
  fun user action _ =>
    if jsGt (getProp action "amount") (getProp user "approvalLimit") then
      .returns (.obj [("valid", .boolean false), ("reason", .str "over limit")])
    else
      .returns (.obj [("valid", .boolean true)])

/-- The example script text of the spec, verbatim. -/
def exampleCode : JsValue :=
  .str "function validateSOD(user,action)\x7b if(action.amount > user.approvalLimit) return \x7bvalid:false, reason:\x27over limit\x27\x7d; return \x7bvalid:true\x7d; \x7d"

def exampleReq : RequestBody :=
  ⟨some exampleCode, some exampleUser, some exampleAction, none⟩

/-- Oracle for the example script: it compiles and defines validateSOD
with the semantics of exampleSod. -/
def exampleModel : ScriptModel := ⟨none, .completes (some exampleSod)⟩

/-- A script whose validateSOD throws new Error("boom"). -/
def throwingModel : ScriptModel :=
  ⟨none, .completes (some (fun _ _ _ => .throws (.errorObj "boom")))⟩

def throwingReq : RequestBody :=
  ⟨some (.str "function validateSOD()\x7b throw new Error(\x27boom\x27); \x7d"),
   some (.obj []), some (.obj []), none⟩

/-! Theorems for the claims. -/

/-- C1: for every request passing the required-field guard whose script
compiles and defines validateSOD, if calling it on the sandbox bindings
returns a verdict V (either valid:true or valid:false with a reason R),
the response is 200 with body exactly success:true, result:V, the reason
string preserved unchanged. -/
theorem validateSOD_verdict_passthrough (req : RequestBody) (m : ScriptModel)
    (f : JsValue → JsValue → JsValue → CallOutcome) (V : JsValue)
    (hcode : truthy (fieldVal req.code) = true)
    (huser : truthy (fieldVal req.testUser) = true)
    (haction : truthy (fieldVal req.testAction) = true)
    (hcompile : m.compile = none)
    (hbody : m.body = .completes (some f))
    (hverdict : V = .obj [("valid", .boolean true)] ∨
      ∃ R, V = .obj [("valid", .boolean false), ("reason", .str R)])
    (hret : f (mkSandbox req).user (mkSandbox req).action
      (mkSandbox req).context = .returns V) :
    (testSodPolicy req m).1 =
      ⟨200, .obj [("success", .boolean true), ("result", V)]⟩ := by
  simp [testSodPolicy, hcode, huser, haction, hcompile, runWrapped, hbody, hret]

/-- C1 witness: the spec example scenario, approvalLimit 100 against
amount 150, yields success:true with the verdict valid:false, reason
"over limit". -/
theorem validateSOD_verdict_passthrough_witness :
    (testSodPolicy exampleReq exampleModel).1 =
      ⟨200, .obj [("success", .boolean true),
        ("result", .obj [("valid", .boolean false),
                         ("reason", .str "over limit")])]⟩ :=
  validateSOD_verdict_passthrough exampleReq exampleModel exampleSod
    (.obj [("valid", .boolean false), ("reason", .str "over limit")])
    rfl rfl rfl rfl rfl (Or.inr ⟨"over limit", rfl⟩) rfl

/-- C2: when validateSOD throws an Error with message X, the inner catch
converts it into the verdict valid:false, reason:X, and the response is
still 200 with success:true. -/
theorem thrown_message_becomes_reason (req : RequestBody) (m : ScriptModel)
    (f : JsValue → JsValue → JsValue → CallOutcome) (X : String)
    (hcode : truthy (fieldVal req.code) = true)
    (huser : truthy (fieldVal req.testUser) = true)
    (haction : truthy (fieldVal req.testAction) = true)
    (hcompile : m.compile = none)
    (hbody : m.body = .completes (some f))
    (hthrow : f (mkSandbox req).user (mkSandbox req).action
      (mkSandbox req).context = .throws (.errorObj X)) :
    (testSodPolicy req m).1 =
      ⟨200, .obj [("success", .boolean true),
        ("result", .obj [("valid", .boolean false), ("reason", .str X)])]⟩ := by
  simp [testSodPolicy, hcode, huser, haction, hcompile, runWrapped, hbody,
    hthrow, catchHandler]

/-- C2 witness: a script throwing new Error("boom") yields success:true
with the verdict valid:false, reason "boom". -/
theorem thrown_message_becomes_reason_witness :
    (testSodPolicy throwingReq throwingModel).1 =
      ⟨200, .obj [("success", .boolean true),
        ("result", .obj [("valid", .boolean false), ("reason", .str "boom")])]⟩ :=
  thrown_message_becomes_reason throwingReq throwingModel
    (fun _ _ _ => .throws (.errorObj "boom")) "boom"
    rfl rfl rfl rfl rfl rfl

/-- A script that runs fine but never defines validateSOD. -/
def noSodModel : ScriptModel := ⟨none, .completes none⟩

def noSodReq : RequestBody :=
  ⟨some (.str "var x = 1;"), some (.obj []), some (.obj []), none⟩

/-- A script with a syntax error: new vm.Script throws a SyntaxError. -/
def synModel : ScriptModel :=
  ⟨some "Unexpected end of input", .completes none⟩

def synReq : RequestBody :=
  ⟨some (.str "function validateSOD( \x7b"), some (.obj []), some (.obj []), none⟩

/-- A script that loops forever: the body never completes. -/
def loopModel : ScriptModel := ⟨none, .diverges⟩

def loopReq : RequestBody :=
  ⟨some (.str "while (true) \x7b \x7d"), some (.obj []), some (.obj []), none⟩

/-- C3 counterexample: a script that runs but fails to define a callable
validateSOD does NOT yield success:false — the ReferenceError raised by
the wrapper line `result = validateSOD(user, action, context)` is caught
by the inner catch, so the endpoint answers 200 with success:true and a
valid:false verdict. -/
theorem missing_validateSOD_yields_success :
    (testSodPolicy noSodReq noSodModel).1 =
      ⟨200, .obj [("success", .boolean true),
        ("result", .obj [("valid", .boolean false),
          ("reason", .str "validateSOD is not defined")])]⟩ ∧
    getProp (testSodPolicy noSodReq noSodModel).1.body "success" ≠
      .boolean false := by
  refine ⟨rfl, ?_⟩
  simp [testSodPolicy, noSodReq, noSodModel, runWrapped, catchHandler,
    mkSandbox, fieldVal, truthy, getProp]

/-- C3 amended: a script that fails to parse yields 500 with
success:false and the SyntaxError message as the error string; but a
script that runs while failing to define a callable validateSOD is
caught by the inner handler and yields 200 with success:true and the
verdict valid:false, reason "validateSOD is not defined". -/
theorem parse_failure_vs_missing_sod (req : RequestBody) (m : ScriptModel)
    (msg : String)
    (hcode : truthy (fieldVal req.code) = true)
    (huser : truthy (fieldVal req.testUser) = true)
    (haction : truthy (fieldVal req.testAction) = true) :
    (m.compile = some msg →
      (testSodPolicy req m).1 =
        ⟨500, .obj [("success", .boolean false), ("error", .str msg)]⟩)
    ∧ (m.compile = none → m.body = .completes none →
      (testSodPolicy req m).1 =
        ⟨200, .obj [("success", .boolean true),
          ("result", .obj [("valid", .boolean false),
            ("reason", .str "validateSOD is not defined")])]⟩) := by
  constructor
  · intro hc
    simp [testSodPolicy, hcode, huser, haction, hc, outerMessage]
  · intro hc hb
    simp [testSodPolicy, hcode, huser, haction, hc, runWrapped, hb,
      catchHandler]

/-- C3 amended witness: a concrete syntax error yields 500 with
success:false and the non-empty SyntaxError message. -/
theorem parse_failure_vs_missing_sod_witness :
    (testSodPolicy synReq synModel).1 =
      ⟨500, .obj [("success", .boolean false),
                  ("error", .str "Unexpected end of input")]⟩ :=
  (parse_failure_vs_missing_sod synReq synModel "Unexpected end of input"
    rfl rfl rfl).1 rfl

/-- C4: a script that exceeds the 5000 ms budget (its body, or the
validateSOD call, diverges) makes runInContext throw the timeout Error;
the outer catch turns it into 500 with success:false and an error string
that identifies a timeout, and the handler still returns a response (no
crash or hang of the host). -/
theorem timeout_reported_as_failure (req : RequestBody) (m : ScriptModel)
    (hcode : truthy (fieldVal req.code) = true)
    (huser : truthy (fieldVal req.testUser) = true)
    (haction : truthy (fieldVal req.testAction) = true)
    (hcompile : m.compile = none)
    (hdiv : m.body = .diverges ∨
      ∃ f, m.body = .completes (some f) ∧
        f (mkSandbox req).user (mkSandbox req).action
          (mkSandbox req).context = .diverges) :
    (testSodPolicy req m).1 =
      ⟨500, .obj [("success", .boolean false),
        ("error", .str "Script execution timed out after 5000ms")]⟩ ∧
    ∃ a b, "Script execution timed out after 5000ms" = a ++ "timed out" ++ b := by
  refine ⟨?_, "Script execution ", " after 5000ms", rfl⟩
  rcases hdiv with hb | ⟨f, hb, hf⟩
  · simp [testSodPolicy, hcode, huser, haction, hcompile, runWrapped, hb,
      timeoutError, outerMessage]
  · simp [testSodPolicy, hcode, huser, haction, hcompile, runWrapped, hb,
      hf, timeoutError, outerMessage]

/-- C4 witness: a concrete infinite-loop script yields 500 with the
timeout error message. -/
theorem timeout_reported_as_failure_witness :
    (testSodPolicy loopReq loopModel).1 =
      ⟨500, .obj [("success", .boolean false),
        ("error", .str "Script execution timed out after 5000ms")]⟩ :=
  (timeout_reported_as_failure loopReq loopModel rfl rfl rfl rfl
    (Or.inl rfl)).1

/-- C5: when code, testUser or testAction is absent from the request
body, the handler answers 400 with the client-error message and performs
no script step at all — the script is neither compiled nor run, whatever
the script text would have done. -/
theorem missing_field_rejected (req : RequestBody) (m : ScriptModel)
    (h : req.code = none ∨ req.testUser = none ∨ req.testAction = none) :
    testSodPolicy req m =
      (⟨400, .obj [("message", .str "Missing required fields")]⟩, []) := by
  rcases h with h | h | h <;>
    simp [testSodPolicy, h, fieldVal, truthy]

/-- C5 witness: a request without a code field is rejected with 400 and
an empty step list. -/
theorem missing_field_rejected_witness :
    testSodPolicy ⟨none, some (.obj []), some (.obj []), none⟩ exampleModel =
      (⟨400, .obj [("message", .str "Missing required fields")]⟩, []) :=
  missing_field_rejected ⟨none, some (.obj []), some (.obj []), none⟩
    exampleModel (Or.inl rfl)

/-- A script whose validateSOD throws the value null: the inner catch
then crashes reading error.message, and that TypeError escapes to the
outer catch. -/
def throwNullModel : ScriptModel :=
  ⟨none, .completes (some (fun _ _ _ => .throws (.rawValue .null)))⟩

def throwNullReq : RequestBody :=
  ⟨some (.str "function validateSOD() \x7b throw null; \x7d"),
   some (.obj []), some (.obj []), none⟩

/-- A script whose validateSOD returns the bare number 42, not a
verdict-shaped object. -/
def numberModel : ScriptModel :=
  ⟨none, .completes (some (fun _ _ _ => .returns (.num 42)))⟩

def numberReq : RequestBody :=
  ⟨some (.str "function validateSOD() \x7b return 42; \x7d"),
   some (.obj []), some (.obj []), none⟩

/-- C7 counterexample: an exception escaping the inner handling is not
reduced to a generic message.  A script throwing null makes the inner
catch itself throw a TypeError; the outer catch sends that TypeError
message verbatim to the client, which differs from the generic
"Code execution failed". -/
theorem escaping_error_message_leaked :
    (testSodPolicy throwNullReq throwNullModel).1 =
      ⟨500, .obj [("success", .boolean false),
        ("error", .str "Cannot read properties of null (reading \x27message\x27)")]⟩ ∧
    "Cannot read properties of null (reading \x27message\x27)" ≠
      "Code execution failed" :=
  ⟨rfl, by decide⟩

/-- C7 amended: any exception escaping the inner handling is mapped to a
500 response with success:false and an error string; that string is the
escaping exception message whenever the exception is an Error instance,
and the generic "Code execution failed" only when the thrown value is
not an Error. -/
theorem escaping_error_mapping (req : RequestBody) (m : ScriptModel)
    (e : Thrown)
    (hcode : truthy (fieldVal req.code) = true)
    (huser : truthy (fieldVal req.testUser) = true)
    (haction : truthy (fieldVal req.testAction) = true)
    (hcompile : m.compile = none)
    (hrun : runWrapped m (mkSandbox req).user (mkSandbox req).action
      (mkSandbox req).context = .error e) :
    (testSodPolicy req m).1 =
      ⟨500, .obj [("success", .boolean false), ("error", outerMessage e)]⟩ ∧
    (∀ msg, e = .errorObj msg → outerMessage e = .str msg) ∧
    (∀ v, e = .rawValue v → outerMessage e = .str "Code execution failed") := by
  refine ⟨?_, ?_, ?_⟩
  · simp [testSodPolicy, hcode, huser, haction, hcompile, hrun]
  · intro msg h; subst h; rfl
  · intro v h; subst h; rfl

/-- C7 amended witness: the throw-null script yields 500 whose error
field is the escaped TypeError message. -/
theorem escaping_error_mapping_witness :
    (testSodPolicy throwNullReq throwNullModel).1 =
      ⟨500, .obj [("success", .boolean false),
        ("error", .str "Cannot read properties of null (reading \x27message\x27)")]⟩ :=
  (escaping_error_mapping throwNullReq throwNullModel
    (.errorObj "Cannot read properties of null (reading \x27message\x27)")
    rfl rfl rfl rfl rfl).1

/-- C8: when testContext is absent, the sandbox binds context to the
empty object, while user and action are exactly the supplied testUser
and testAction values. -/
theorem context_defaults_to_empty (req : RequestBody) (u a : JsValue)
    (hctx : req.testContext = none)
    (hu : req.testUser = some u)
    (ha : req.testAction = some a) :
    (mkSandbox req).context = .obj [] ∧
    (mkSandbox req).user = u ∧
    (mkSandbox req).action = a := by
  simp [mkSandbox, hctx, hu, ha, fieldVal, truthy]

/-- C8 witness: the example request (no testContext) gets the empty
context object and its own user and action fixtures. -/
theorem context_defaults_to_empty_witness :
    (mkSandbox exampleReq).context = .obj [] ∧
    (mkSandbox exampleReq).user = exampleUser ∧
    (mkSandbox exampleReq).action = exampleAction :=
  context_defaults_to_empty exampleReq exampleUser exampleAction rfl rfl rfl

/-- C9: whatever value validateSOD returns without throwing — verdict
shaped or not — is passed through verbatim as the result of a 200
success:true response; no validation of the Verdict shape happens at the
outcome boundary. -/
theorem result_not_validated (req : RequestBody) (m : ScriptModel)
    (f : JsValue → JsValue → JsValue → CallOutcome) (v : JsValue)
    (hcode : truthy (fieldVal req.code) = true)
    (huser : truthy (fieldVal req.testUser) = true)
    (haction : truthy (fieldVal req.testAction) = true)
    (hcompile : m.compile = none)
    (hbody : m.body = .completes (some f))
    (hret : f (mkSandbox req).user (mkSandbox req).action
      (mkSandbox req).context = .returns v) :
    (testSodPolicy req m).1 =
      ⟨200, .obj [("success", .boolean true), ("result", v)]⟩ := by
  simp [testSodPolicy, hcode, huser, haction, hcompile, runWrapped, hbody, hret]

/-- C9 witness: a script returning the bare number 42 yields 200 with
success:true and result 42, with no shape check. -/
theorem result_not_validated_witness :
    (testSodPolicy numberReq numberModel).1 =
      ⟨200, .obj [("success", .boolean true), ("result", .num 42)]⟩ :=
  result_not_validated numberReq numberModel
    (fun _ _ _ => .returns (.num 42)) (.num 42)
    rfl rfl rfl rfl rfl rfl

/-- C10: the guard checks truthiness, not presence — a request whose
code, testUser or testAction field is present but falsy (empty string,
0, false, null) is rejected with 400 and no script step is performed. -/
theorem falsy_field_rejected (req : RequestBody) (m : ScriptModel)
    (h : (∃ c, req.code = some c ∧ truthy c = false) ∨
         (∃ u, req.testUser = some u ∧ truthy u = false) ∨
         (∃ a, req.testAction = some a ∧ truthy a = false)) :
    testSodPolicy req m =
      (⟨400, .obj [("message", .str "Missing required fields")]⟩, []) := by
  rcases h with ⟨c, hc, hct⟩ | ⟨u, hu, hut⟩ | ⟨a, ha, hat⟩
  · simp [testSodPolicy, hc, fieldVal, hct]
  · simp [testSodPolicy, hu, fieldVal, hut]
  · simp [testSodPolicy, ha, fieldVal, hat]

/-- C10 witness: a present but empty code string is rejected with 400
and an empty step list. -/
theorem falsy_field_rejected_witness :
    testSodPolicy ⟨some (.str ""), some (.obj []), some (.obj []), none⟩
        exampleModel =
      (⟨400, .obj [("message", .str "Missing required fields")]⟩, []) :=
  falsy_field_rejected ⟨some (.str ""), some (.obj []), some (.obj []), none⟩
    exampleModel (Or.inl ⟨.str "", rfl, rfl⟩)

end WorkflowCraft
